import Mathlib

/-!
Verification of the serial-port interface of the zigbee-terminal repository
(`src/SerialInterface.cpp`, POSIX backend) against its design specification.

The C++ class `SerialInterface` is embedded shallowly: its member fields become
a Lean structure, each member function becomes a pure Lean function from the
pre-state (plus an oracle value standing for the result of the single OS call
the function performs) to the post-state together with the returned status,
the list of emitted signals, and the value stored into any out-parameter.
-/

namespace ZigbeeTerminal

/-! ### POSIX termios constants (Linux asm-generic values) used by the code -/

def B300 : Nat := 0o7
def B600 : Nat := 0o10
def B1200 : Nat := 0o11
def B2400 : Nat := 0o13
def B4800 : Nat := 0o14
def B9600 : Nat := 0o15
def B19200 : Nat := 0o16
def B38400 : Nat := 0o17
def B57600 : Nat := 0o10001
def B115200 : Nat := 0o10002
def CBAUD : Nat := 0o10017
def CS5 : Nat := 0o0
def CS6 : Nat := 0o20
def CS7 : Nat := 0o40
def CS8 : Nat := 0o60
def CREAD : Nat := 0o200
def PARENB : Nat := 0o400
def PARODD : Nat := 0o1000
def CLOCAL : Nat := 0o4000
def CRTSCTS : Nat := 0o20000000000
def IGNBRK : Nat := 0o1
def IGNPAR : Nat := 0o4
def IXON : Nat := 0o2000
def IXOFF : Nat := 0o10000

/-- The `SI_FLOW_*` and `SI_PARITY_*` enumeration constants are declared in
`SerialInterface.h`, which is not among the sources. Modelled from the spec:
the flow enum lists None, Hardware, SoftwareXonXoff and the parity enum lists
None, Odd, Even, and the setters `set_flow`/`set_parity` accept exactly the
range 0..2, so the constants are 0, 1, 2 in declaration order. -/
def SI_FLOW_NONE : Int := 0
def SI_FLOW_HARDWARE : Int := 1
def SI_FLOW_XON_XOFF : Int := 2
def SI_PARITY_NONE : Int := 0
def SI_PARITY_ODD : Int := 1
def SI_PARITY_EVEN : Int := 2

/-- Return statuses of the `SerialInterface` operations. The `SI_*` status
constants are declared in the missing header `SerialInterface.h`; modelled
from the spec's error kinds (Success / error / NotOpen) as an enumeration. -/
inductive SIStatus where
  | SI_SUCCESS
  | SI_ERROR
  | SI_PORT_NOT_OPEN
deriving DecidableEq, Repr

/-- The four sigc++ notification signals the class can emit. -/
inductive SIEvent where
  | EvPortOpened
  | EvPortClosed
  | EvPortError
  | EvReceiveData
deriving DecidableEq, Repr

/-- The fields of `struct termios` that `configure_port` assembles
(`c_cflag`, `c_iflag`, `c_oflag`, `c_lflag`, `c_cc[VTIME]`, `c_cc[VMIN]`). -/
structure Termios where
  c_iflag : Nat
  c_oflag : Nat
  c_cflag : Nat
  c_lflag : Nat
  c_cc_vtime : Nat
  c_cc_vmin : Nat
deriving DecidableEq, Repr

/-- The member fields of class `SerialInterface` (POSIX backend):
`port_fd` is the OS handle (-1 when closed), plus the configuration fields,
the `running` flag shared with the watcher thread, and the current and
saved termios blocks. -/
structure SerialInterface where
  port_fd : Int
  baud : Nat
  port : String
  bits : Int
  flow : Int
  parity : Int
  debug : Bool
  running : Bool
  port_termios : Termios
  port_termios_saved : Termios
deriving DecidableEq, Repr

/-- `SerialInterface::SerialInterface()`: the constructor. The two termios
members are left uninitialized by the constructor, so they are parameters. -/
def SerialInterface.init (t ts : Termios) : SerialInterface :=
  { port_fd := -1
    baud := 19200
    port := ""
    bits := 8
    flow := SI_FLOW_NONE
    parity := SI_PARITY_NONE
    debug := false
    running := false
    port_termios := t
    port_termios_saved := ts }

/-- `SerialInterface::is_open()`: on POSIX the port is open iff `port_fd != -1`. -/
def is_open (s : SerialInterface) : Bool :=
  s.port_fd != -1

/-- The `switch (baud)` in `configure_port` that selects the `B*` rate
constant for `c_cflag`; the preceding assignment `port_termios.c_cflag = B19200`
makes B19200 the default for any value not in the supported set. -/
def baud_cflag (b : Nat) : Nat :=
  if b = 300 then B300
  else if b = 600 then B600
  else if b = 1200 then B1200
  else if b = 2400 then B2400
  else if b = 4800 then B4800
  else if b = 9600 then B9600
  else if b = 19200 then B19200
  else if b = 38400 then B38400
  else if b = 57600 then B57600
  else if b = 115200 then B115200
  else B19200

/-- The `switch (bits)` in `configure_port`: `CS5`..`CS8` are OR-ed into
`c_cflag`; for out-of-range values no case matches and nothing is OR-ed. -/
def bits_cflag (b : Int) : Nat :=
  if b = 5 then CS5
  else if b = 6 then CS6
  else if b = 7 then CS7
  else if b = 8 then CS8
  else 0

/-- The `switch (parity)` in `configure_port`. -/
def parity_cflag (p : Int) : Nat :=
  if p = SI_PARITY_ODD then PARODD ||| PARENB
  else if p = SI_PARITY_EVEN then PARENB
  else 0

/-- The `c_cflag` contribution of the `switch (flow)` in `configure_port`. -/
def flow_cflag (f : Int) : Nat :=
  if f = SI_FLOW_NONE then CLOCAL
  else if f = SI_FLOW_HARDWARE then CRTSCTS
  else 0

/-- The `c_iflag` contribution of the `switch (flow)` in `configure_port`. -/
def flow_iflag (f : Int) : Nat :=
  if f = SI_FLOW_XON_XOFF then IXON ||| IXOFF
  else 0

/-- `SerialInterface::configure_port()` (POSIX branch): assembles the termios
control block from the configuration fields and pushes it to the handle with
`tcsetattr` (an OS effect with no further state change). Only the in-memory
`port_termios` member changes. -/
def configure_port (s : SerialInterface) : SerialInterface :=
  { s with
    port_termios :=
      { c_cflag :=
          baud_cflag s.baud ||| bits_cflag s.bits ||| parity_cflag s.parity
            ||| CREAD ||| flow_cflag s.flow
        c_iflag := (IGNPAR ||| IGNBRK) ||| flow_iflag s.flow
        c_oflag := 0
        c_lflag := 0
        c_cc_vtime := 0
        c_cc_vmin := 1 } }

/-- `SerialInterface::close_port()`: if the port is open, clear the `running`
flag, restore the saved termios to the OS handle (`tcsetattr`, an OS effect),
flush, close the descriptor, set `port_fd = -1` and emit `m_port_closed`;
otherwise do nothing. Returns `SI_SUCCESS` in both cases. -/
def close_port (s : SerialInterface) : SerialInterface × SIStatus × List SIEvent :=
  if is_open s then
    ({ s with running := false, port_fd := -1 }, .SI_SUCCESS, [.EvPortClosed])
  else
    (s, .SI_SUCCESS, [])

/-- `gsize` is 64-bit unsigned; storing the `ssize_t` result of `::write` /
`::read` into it reduces it modulo `2^64`. -/
def gsizeOf (r : Int) : Nat :=
  (r % (2 : Int) ^ 64).toNat

/-- `SerialInterface::write(buf, count, bytes_written)` (POSIX branch).
`osRes` is the oracle for the return value of the single `::write` call
(`-1` on OS error, otherwise the number of bytes transferred). The result is
(post-state, returned status, emitted signals, value stored into the
`bytes_written` out-parameter, or `none` if it was never assigned). -/
def write (s : SerialInterface) (osRes : Int) :
    SerialInterface × SIStatus × List SIEvent × Option Nat :=
  if is_open s then
    let bytes_written := gsizeOf osRes
    if bytes_written = 2 ^ 64 - 1 then
      let c := close_port s
      (c.1, .SI_ERROR, .EvPortError :: c.2.2, some bytes_written)
    else
      (s, .SI_SUCCESS, [], some bytes_written)
  else
    (s, .SI_PORT_NOT_OPEN, [], none)

/-- `SerialInterface::read(buf, count, bytes_read)` (POSIX branch), embedded
exactly like `write`. -/
def read (s : SerialInterface) (osRes : Int) :
    SerialInterface × SIStatus × List SIEvent × Option Nat :=
  if is_open s then
    let bytes_read := gsizeOf osRes
    if bytes_read = 2 ^ 64 - 1 then
      let c := close_port s
      (c.1, .SI_ERROR, .EvPortError :: c.2.2, some bytes_read)
    else
      (s, .SI_SUCCESS, [], some bytes_read)
  else
    (s, .SI_PORT_NOT_OPEN, [], none)

/-- `SerialInterface::open_port()` (POSIX branch): first `close_port()`, then
acquire the handle (`osOpen` is the oracle for the `open(2)` result, `-1` on
failure); on failure return `SI_ERROR` leaving the port closed; on success
read the current termios into `port_termios` (`osTermios` is the oracle for
`tcgetattr`), save a copy, run `configure_port`, flush, start the watcher
thread (`launch_select_thread` sets `running = true`), emit `m_port_opened`
and return `SI_SUCCESS`. -/
def open_port (s : SerialInterface) (osOpen : Int) (osTermios : Termios) :
    SerialInterface × SIStatus × List SIEvent :=
  let c := close_port s
  let s1 := { c.1 with port_fd := osOpen }
  if is_open s1 then
    let s2 := { s1 with port_termios := osTermios, port_termios_saved := osTermios }
    let s3 := configure_port s2
    let s4 := { s3 with running := true }
    (s4, .SI_SUCCESS, c.2.2 ++ [.EvPortOpened])
  else
    (s1, .SI_ERROR, c.2.2)

/-- `SerialInterface::set_port(p)`: assigns the identifier only when the port
is not open; returns the (possibly unchanged) `port` field. -/
def set_port (s : SerialInterface) (p : String) : SerialInterface × String :=
  let s1 := if is_open s then s else { s with port := p }
  (s1, s1.port)

/-- `SerialInterface::get_port()`. -/
def get_port (s : SerialInterface) : String :=
  s.port

/-- `SerialInterface::set_baud(b)`: stores `b` unconditionally, reapplies the
configuration, and returns the stored `baud` field. -/
def set_baud (s : SerialInterface) (b : Nat) : SerialInterface × Nat :=
  let s1 := configure_port { s with baud := b }
  (s1, s1.baud)

/-- `SerialInterface::get_baud()`. -/
def get_baud (s : SerialInterface) : Nat :=
  s.baud

/-- `SerialInterface::set_bits(b)`: stores `b` only when `5 <= b <= 8`,
reapplies the configuration, and returns the stored `bits` field. -/
def set_bits (s : SerialInterface) (b : Int) : SerialInterface × Int :=
  let s1 := configure_port (if 5 ≤ b ∧ b ≤ 8 then { s with bits := b } else s)
  (s1, s1.bits)

/-- `SerialInterface::get_bits()`. -/
def get_bits (s : SerialInterface) : Int :=
  s.bits

/-- `SerialInterface::set_flow(f)`: stores `f` only when `0 <= f <= 2`. -/
def set_flow (s : SerialInterface) (f : Int) : SerialInterface × Int :=
  let s1 := configure_port (if 0 ≤ f ∧ f ≤ 2 then { s with flow := f } else s)
  (s1, s1.flow)

/-- `SerialInterface::set_parity(p)`: stores `p` only when `0 <= p <= 2`. -/
def set_parity (s : SerialInterface) (p : Int) : SerialInterface × Int :=
  let s1 := configure_port (if 0 ≤ p ∧ p ≤ 2 then { s with parity := p } else s)
  (s1, s1.parity)

/-- The supported discrete baud rates of the `switch` in `configure_port`. -/
def supportedBauds : List Nat :=
  [300, 600, 1200, 2400, 4800, 9600, 19200, 38400, 57600, 115200]

/-- A concrete termios block, used to instantiate the constructor's
uninitialized members in concrete evaluations. -/
def termios0 : Termios :=
  ⟨0, 0, 0, 0, 0, 0⟩

/-- A freshly constructed `SerialInterface` (concrete instance). -/
def sclosed0 : SerialInterface :=
  SerialInterface.init termios0 termios0

/-- A concrete `SerialInterface` in the Open state (handle 3). -/
def sopen0 : SerialInterface :=
  { sclosed0 with port_fd := 3, running := true }

/-! ### Watcher-thread transition system

`launch_select_thread` creates a detached thread running `select_thread`, whose
loop re-checks `running && is_open()` once per iteration (with a 1-second
`select` timeout between checks). `close_port` merely clears `running`; it does
not join or otherwise wait for the thread. The interleaving of the caller's
operations with the watcher's loop-condition checks is modelled as a labelled
transition system: the state is the `SerialInterface` object together with the
number of watcher threads currently alive. -/

structure SysState where
  si : SerialInterface
  watchers : Nat
deriving DecidableEq, Repr

/-- One atomic step of the system: a caller-invoked member function, or one
loop-condition check of a live watcher thread (`select_thread`). `open_ok` /
`open_fail` distinguish the `open(2)` oracle succeeding or returning `-1`;
a successful `open_port` calls `launch_select_thread`, creating one thread.
A watcher whose loop condition `running && is_open()` fails returns
(`watcher_exit`); a watcher whose `select` call fails also returns
(`watcher_select_fail`); otherwise it loops (`watcher_iterate`). -/
inductive SysStep : SysState → SysState → Prop where
  | open_ok (σ : SysState) (fd : Int) (t : Termios) (hfd : fd ≠ -1) :
      SysStep σ ⟨(open_port σ.si fd t).1, σ.watchers + 1⟩
  | open_fail (σ : SysState) (t : Termios) :
      SysStep σ ⟨(open_port σ.si (-1) t).1, σ.watchers⟩
  | close (σ : SysState) :
      SysStep σ ⟨(close_port σ.si).1, σ.watchers⟩
  | write_step (σ : SysState) (r : Int) :
      SysStep σ ⟨(write σ.si r).1, σ.watchers⟩
  | read_step (σ : SysState) (r : Int) :
      SysStep σ ⟨(read σ.si r).1, σ.watchers⟩
  | watcher_iterate (σ : SysState) (h : 1 ≤ σ.watchers)
      (hrun : σ.si.running = true) (hopen : is_open σ.si = true) :
      SysStep σ σ
  | watcher_exit (σ : SysState) (h : 1 ≤ σ.watchers)
      (hstop : ¬(σ.si.running = true ∧ is_open σ.si = true)) :
      SysStep σ ⟨σ.si, σ.watchers - 1⟩
  | watcher_select_fail (σ : SysState) (h : 1 ≤ σ.watchers) :
      SysStep σ ⟨σ.si, σ.watchers - 1⟩

/-- The same transition system restricted to quiescent opens: a successful
`open_port` is taken only when no watcher thread from an earlier open is
still alive. -/
inductive QStep : SysState → SysState → Prop where
  | open_ok (σ : SysState) (fd : Int) (t : Termios) (hfd : fd ≠ -1)
      (hq : σ.watchers = 0) :
      QStep σ ⟨(open_port σ.si fd t).1, σ.watchers + 1⟩
  | open_fail (σ : SysState) (t : Termios) :
      QStep σ ⟨(open_port σ.si (-1) t).1, σ.watchers⟩
  | close (σ : SysState) :
      QStep σ ⟨(close_port σ.si).1, σ.watchers⟩
  | write_step (σ : SysState) (r : Int) :
      QStep σ ⟨(write σ.si r).1, σ.watchers⟩
  | read_step (σ : SysState) (r : Int) :
      QStep σ ⟨(read σ.si r).1, σ.watchers⟩
  | watcher_iterate (σ : SysState) (h : 1 ≤ σ.watchers)
      (hrun : σ.si.running = true) (hopen : is_open σ.si = true) :
      QStep σ σ
  | watcher_exit (σ : SysState) (h : 1 ≤ σ.watchers)
      (hstop : ¬(σ.si.running = true ∧ is_open σ.si = true)) :
      QStep σ ⟨σ.si, σ.watchers - 1⟩
  | watcher_select_fail (σ : SysState) (h : 1 ≤ σ.watchers) :
      QStep σ ⟨σ.si, σ.watchers - 1⟩

/-- States reachable from a fresh object by arbitrary interleavings. -/
def SysReach (σ σ' : SysState) : Prop :=
  Relation.ReflTransGen SysStep σ σ'

/-- States reachable under the quiescent-open discipline. -/
def QReach (σ σ' : SysState) : Prop :=
  Relation.ReflTransGen QStep σ σ'

/-! ### Natural / alphanumeric ordering and the enumeration post-processing

`enumerate_ports` ends with `sort(..., doj::alphanum_less<std::string>())`
followed by `erase(unique(...))`. The header `alphanum.h` providing the
comparator is not among the sources. Modelled from the spec: the comparator
implements "natural/alphanumeric ordering", i.e. strings are cut into maximal
runs of digits and non-digits and compared run-wise, with digit runs compared
by numeric value rather than character-by-character. Each string is mapped to
a key (a list of encoded runs) and keys are compared lexicographically. -/

/-- Cuts a character list into maximal runs of digits / non-digits; `d` is the
digit-ness of the run being accumulated in `acc` (in reverse). -/
def natRun (d : Bool) (acc : List Char) : List Char → List (List Char)
  | [] => [acc.reverse]
  | c :: cs =>
    if c.isDigit = d then natRun d (c :: acc) cs
    else acc.reverse :: natRun c.isDigit [c] cs

/-- Maximal digit / non-digit runs of a character list. -/
def natChunks : List Char → List (List Char)
  | [] => []
  | c :: cs => natRun c.isDigit [c] cs

/-- Numeric value of a digit run. -/
def digitsVal (cs : List Char) : Nat :=
  cs.foldl (fun v c => v * 10 + (c.toNat - 48)) 0

/-- Encoding of one run: a digit run is represented by its numeric value
(tagged 0, so that digits order before other characters), any other run by
its character codes (tagged 1). -/
def chunkKey (cs : List Char) : List Nat :=
  match cs with
  | [] => []
  | c :: _ => if c.isDigit then [0, digitsVal cs] else 1 :: cs.map Char.toNat

/-- The natural-order sort key of a string. -/
def natKey (s : String) : List (List Nat) :=
  (natChunks s.data).map chunkKey

/-- Modelled from the spec: the non-strict natural-order comparator derived
from `doj::alphanum_less` (header `alphanum.h`, not among the sources);
`a` sorts no later than `b` iff its key is lexicographically no greater. -/
def natLe (a b : String) : Bool :=
  decide (natKey a ≤ natKey b)

/-- The post-processing of `enumerate_ports` (lines 153–157): sort the
collected identifier list with the natural-order comparator, then remove
adjacent duplicates (`std::unique` keeps the first element of every run of
equal elements, exactly `destutter (· ≠ ·)`). -/
def enumerate_post (l : List String) : List String :=
  (l.mergeSort natLe).destutter (· ≠ ·)

/-! ### Helper lemmas -/

/-- OR-ing in bits disjoint from the mask does not change a masked value. -/
theorem land_lor_right {x j m : Nat} (hj : j &&& m = 0) :
    (x ||| j) &&& m = x &&& m := by
  refine Nat.eq_of_testBit_eq fun i => ?_
  have hj' : (j &&& m).testBit i = Nat.testBit 0 i := by rw [hj]
  simp only [Nat.testBit_land, Nat.testBit_lor, Nat.zero_testBit] at hj' ⊢
  cases hm : m.testBit i
  · simp
  · simp only [hm, Bool.and_true] at hj'
    simp [hj', hm]

/-- Every rate constant produced by the baud switch lies inside `CBAUD`. -/
theorem baud_cflag_sub_CBAUD (b : Nat) : baud_cflag b &&& CBAUD = baud_cflag b := by
  unfold baud_cflag
  repeat' split
  all_goals decide

/-- The data-bits contribution to `c_cflag` is disjoint from `CBAUD`. -/
theorem bits_cflag_CBAUD (b : Int) : bits_cflag b &&& CBAUD = 0 := by
  unfold bits_cflag
  repeat' split
  all_goals decide

/-- The parity contribution to `c_cflag` is disjoint from `CBAUD`. -/
theorem parity_cflag_CBAUD (p : Int) : parity_cflag p &&& CBAUD = 0 := by
  unfold parity_cflag
  repeat' split
  all_goals decide

/-- The flow-control contribution to `c_cflag` is disjoint from `CBAUD`. -/
theorem flow_cflag_CBAUD (f : Int) : flow_cflag f &&& CBAUD = 0 := by
  unfold flow_cflag
  repeat' split
  all_goals decide

/-- The rate bits of the assembled control block are exactly the selected
rate constant, whatever the other configuration fields are. -/
theorem configure_cflag_CBAUD (s : SerialInterface) :
    (configure_port s).port_termios.c_cflag &&& CBAUD = baud_cflag s.baud := by
  have hc : (configure_port s).port_termios.c_cflag
      = baud_cflag s.baud ||| bits_cflag s.bits ||| parity_cflag s.parity
          ||| CREAD ||| flow_cflag s.flow := rfl
  rw [hc, land_lor_right (flow_cflag_CBAUD s.flow),
    land_lor_right (by decide : CREAD &&& CBAUD = 0),
    land_lor_right (parity_cflag_CBAUD s.parity),
    land_lor_right (bits_cflag_CBAUD s.bits),
    baud_cflag_sub_CBAUD]

/-- Any rate outside the supported set selects the default constant `B19200`. -/
theorem baud_cflag_default {b : Nat} (h : b ∉ supportedBauds) :
    baud_cflag b = B19200 := by
  simp only [supportedBauds, List.mem_cons, List.not_mem_nil, or_false, not_or] at h
  obtain ⟨h1, h2, h3, h4, h5, h6, h7, h8, h9, h10⟩ := h
  simp [baud_cflag, h1, h2, h3, h4, h5, h6, h7, h8, h9, h10]

/-- The natural-order comparator is transitive. -/
theorem natLe_trans (a b c : String) (h1 : natLe a b = true) (h2 : natLe b c = true) :
    natLe a c = true := by
  simp only [natLe, decide_eq_true_eq] at h1 h2 ⊢
  exact le_trans h1 h2

/-- The natural-order comparator is total. -/
theorem natLe_total (a b : String) : (natLe a b || natLe b a) = true := by
  simp only [natLe, Bool.or_eq_true, decide_eq_true_eq]
  exact le_total _ _

/-- A list that is sorted by natural order and has no adjacent duplicates has
no duplicates at all, provided no two of its distinct elements share the same
natural-order key. -/
theorem nodup_of_key_sorted (l : List String)
    (hp : l.Pairwise (fun a b => natLe a b = true))
    (hc : l.Chain' (· ≠ ·))
    (hinj : ∀ a ∈ l, ∀ b ∈ l, natKey a = natKey b → a = b) : l.Nodup := by
  induction l with
  | nil => simp
  | cons x xs ih =>
    rw [List.pairwise_cons] at hp
    refine List.Nodup.cons ?_
      (ih hp.2 hc.tail
        (fun a ha b hb => hinj a (List.mem_cons_of_mem _ ha) b (List.mem_cons_of_mem _ hb)))
    intro hmem
    cases xs with
    | nil => simp at hmem
    | cons y ys =>
      have hxy : x ≠ y := (List.chain'_cons.mp hc).1
      rcases List.mem_cons.mp hmem with h | h
      · exact hxy h
      · have h1 : natLe x y = true := hp.1 y (List.mem_cons_self _ _)
        have h2 : natLe y x = true :=
          (List.pairwise_cons.mp hp.2).1 x h
        have hk : natKey x = natKey y := by
          simp only [natLe, decide_eq_true_eq] at h1 h2
          exact le_antisymm h1 h2
        exact hxy (hinj x (List.mem_cons_self _ _) y
          (List.mem_cons_of_mem _ (List.mem_cons_self _ _)) hk)

/-- The post-processed enumeration result is sorted by natural order. -/
theorem enumerate_post_pairwise (l : List String) :
    (enumerate_post l).Pairwise (fun a b => natLe a b = true) :=
  List.Pairwise.sublist (List.destutter_sublist _ _)
    (List.sorted_mergeSort natLe_trans natLe_total l)

/-- Every identifier in the post-processed result was in the collected list. -/
theorem enumerate_post_subset (l : List String) :
    ∀ a ∈ enumerate_post l, a ∈ l := by
  intro a ha
  exact (List.mergeSort_perm l natLe).subset ((List.destutter_sublist _ _).subset ha)

/-! ### The claims -/

/-- C1: for every open port, if the OS transfer call inside `read` or `write`
reports an error, the operation emits the port-error notification exactly
once, performs the close sequence leaving the port Closed, and returns
`SI_ERROR` to the caller. -/
theorem transfer_error_emits_once_and_closes (s : SerialInterface)
    (h : is_open s = true) :
    (write s (-1)).1 = (close_port s).1 ∧
    (write s (-1)).2.1 = .SI_ERROR ∧
    (write s (-1)).2.2.1.count .EvPortError = 1 ∧
    is_open (write s (-1)).1 = false ∧
    (read s (-1)).1 = (close_port s).1 ∧
    (read s (-1)).2.1 = .SI_ERROR ∧
    (read s (-1)).2.2.1.count .EvPortError = 1 ∧
    is_open (read s (-1)).1 = false := by
  have hg : gsizeOf (-1) = 2 ^ 64 - 1 := by decide
  have hfd : ¬s.port_fd = -1 := by simpa [is_open] using h
  simp [write, read, close_port, is_open, hg, hfd]

theorem transfer_error_emits_once_and_closes_witness :
    is_open sopen0 = true ∧
    (write sopen0 (-1)).2.1 = .SI_ERROR ∧
    is_open (write sopen0 (-1)).1 = false :=
  ⟨by decide, (transfer_error_emits_once_and_closes sopen0 (by decide)).2.1,
    (transfer_error_emits_once_and_closes sopen0 (by decide)).2.2.2.1⟩

/-- C2: for every baud value in the supported set, `configure_port` assembles
a control block whose `CBAUD` bits are exactly the rate constant selected for
that value (and the ten constants are pairwise distinct); for every value
outside the set, the assembled control block equals the one produced with
baud 19200. -/
theorem configure_baud_exact_or_fallback (s : SerialInterface) :
    (s.baud ∈ supportedBauds →
      (configure_port s).port_termios.c_cflag &&& CBAUD = baud_cflag s.baud) ∧
    (s.baud ∉ supportedBauds →
      (configure_port s).port_termios
        = (configure_port { s with baud := 19200 }).port_termios) ∧
    (supportedBauds.map baud_cflag).Nodup := by
  refine ⟨fun _ => configure_cflag_CBAUD s, fun h => ?_, by decide⟩
  have hb : baud_cflag s.baud = baud_cflag 19200 := by
    rw [baud_cflag_default h]
    decide
  simp [configure_port, hb]

theorem configure_baud_exact_or_fallback_witness :
    (9600 : Nat) ∈ supportedBauds ∧
    (configure_port { sclosed0 with baud := 9600 }).port_termios.c_cflag &&& CBAUD
      = baud_cflag 9600 ∧
    (7 : Nat) ∉ supportedBauds ∧
    (configure_port { sclosed0 with baud := 7 }).port_termios
      = (configure_port { sclosed0 with baud := 19200 }).port_termios :=
  ⟨by decide,
    (configure_baud_exact_or_fallback { sclosed0 with baud := 9600 }).1 (by decide),
    by decide,
    (configure_baud_exact_or_fallback { sclosed0 with baud := 7 }).2.1 (by decide)⟩

/-- C4: for every port in the Closed state, `read` and `write` return
`SI_PORT_NOT_OPEN` synchronously, consume no OS result, change no state, emit
no notification, and never assign the byte-count out-parameter. -/
theorem not_open_read_write_no_effect (s : SerialInterface) (r : Int)
    (h : is_open s = false) :
    read s r = (s, .SI_PORT_NOT_OPEN, [], none) ∧
    write s r = (s, .SI_PORT_NOT_OPEN, [], none) := by
  simp [read, write, h]

theorem not_open_read_write_no_effect_witness :
    is_open sclosed0 = false ∧
    read sclosed0 5 = (sclosed0, .SI_PORT_NOT_OPEN, [], none) ∧
    write sclosed0 5 = (sclosed0, .SI_PORT_NOT_OPEN, [], none) :=
  ⟨by decide, (not_open_read_write_no_effect sclosed0 5 (by decide)).1,
    (not_open_read_write_no_effect sclosed0 5 (by decide)).2⟩

/-- C5: for every port in the Closed state — including a freshly constructed
one — `close_port` returns `SI_SUCCESS`, leaves all state unchanged and emits
no notification. -/
theorem close_closed_is_noop (s : SerialInterface) (t ts : Termios)
    (h : is_open s = false) :
    close_port s = (s, .SI_SUCCESS, []) ∧
    is_open (SerialInterface.init t ts) = false ∧
    close_port (SerialInterface.init t ts)
      = (SerialInterface.init t ts, .SI_SUCCESS, []) := by
  refine ⟨by simp [close_port, h], by simp [is_open, SerialInterface.init], ?_⟩
  simp [close_port, is_open, SerialInterface.init]

theorem close_closed_is_noop_witness :
    is_open sclosed0 = false ∧
    close_port sclosed0 = (sclosed0, .SI_SUCCESS, []) :=
  ⟨by decide, (close_closed_is_noop sclosed0 termios0 termios0 (by decide)).1⟩

/-- C6: for every integer outside `[5,8]` the data-bits setter leaves the
`bits` field unchanged; for integers in `[5,8]` the field becomes the
argument. -/
theorem set_bits_in_range_only (s : SerialInterface) (b : Int) :
    (¬(5 ≤ b ∧ b ≤ 8) → (set_bits s b).1.bits = s.bits) ∧
    ((5 ≤ b ∧ b ≤ 8) → (set_bits s b).1.bits = b) := by
  constructor <;> intro h <;> simp [set_bits, configure_port, h]

theorem set_bits_in_range_only_witness :
    (set_bits sclosed0 4).1.bits = sclosed0.bits ∧
    (set_bits sclosed0 7).1.bits = 7 :=
  ⟨(set_bits_in_range_only sclosed0 4).1 (by decide),
    (set_bits_in_range_only sclosed0 7).2 (by decide)⟩

/-- C7: whenever the OS handle cannot be acquired (the `open(2)` oracle
returns `-1`), `open_port` returns `SI_ERROR`, the port ends in the Closed
state, and no port-opened notification is emitted. -/
theorem open_failure_stays_closed (s : SerialInterface) (t : Termios) :
    (open_port s (-1) t).2.1 = .SI_ERROR ∧
    is_open (open_port s (-1) t).1 = false ∧
    SIEvent.EvPortOpened ∉ (open_port s (-1) t).2.2 := by
  by_cases hfd : s.port_fd = -1 <;> simp [open_port, close_port, is_open, hfd]

/-- C8: for every port in the Open state, the identifier setter changes
nothing at all (the whole state is returned unchanged); for a Closed port it
stores the new identifier. -/
theorem set_port_only_when_closed (s : SerialInterface) (p : String) :
    (is_open s = true → set_port s p = (s, s.port)) ∧
    (is_open s = false → set_port s p = ({ s with port := p }, p)) := by
  constructor <;> intro h <;> simp [set_port, h]

theorem set_port_only_when_closed_witness :
    set_port sopen0 "/dev/x" = (sopen0, sopen0.port) ∧
    set_port sclosed0 "/dev/x" = ({ sclosed0 with port := "/dev/x" }, "/dev/x") :=
  ⟨(set_port_only_when_closed sopen0 "/dev/x").1 (by decide),
    (set_port_only_when_closed sclosed0 "/dev/x").2 (by decide)⟩

/-- C10: `set_baud` stores its argument in the `baud` field unconditionally
and returns it, `get_baud` then returns it, and `configure_port` never
changes the stored `baud` field — the 19200 fallback exists only in the
assembled control block. -/
theorem set_baud_stores_unconditionally (s : SerialInterface) (b : Nat) :
    (set_baud s b).1.baud = b ∧
    (set_baud s b).2 = b ∧
    get_baud (set_baud s b).1 = b ∧
    (configure_port s).baud = s.baud := by
  simp [set_baud, get_baud, configure_port]

/-- C3 (amended): each successful `open_port` launches exactly one watcher
thread, so under the quiescent-open discipline — every successful open
happens only after all watchers from earlier opens have exited — every
reachable state has at most one live watcher. (Without that proviso the
claim fails: see the counterexample, where a close immediately followed by a
re-open leaves two live watchers on an open port, because `close_port` only
clears the cooperative `running` flag and the old watcher re-checks it only
at its next loop iteration.) -/
theorem watcher_at_most_one_quiescent (t ts : Termios) (σ : SysState)
    (h : QReach ⟨SerialInterface.init t ts, 0⟩ σ) : σ.watchers ≤ 1 := by
  induction h with
  | refl => simp
  | tail hab hbc ih =>
    cases hbc with
    | open_ok fd t' hfd hq => simp [hq]
    | open_fail t' => exact ih
    | close => exact ih
    | write_step r => exact ih
    | read_step r => exact ih
    | watcher_iterate h1 h2 h3 => exact ih
    | watcher_exit h1 h2 => exact le_trans (Nat.sub_le _ _) ih
    | watcher_select_fail h1 => exact le_trans (Nat.sub_le _ _) ih

theorem watcher_at_most_one_quiescent_witness :
    (⟨SerialInterface.init termios0 termios0, 0⟩ : SysState).watchers ≤ 1 :=
  watcher_at_most_one_quiescent termios0 termios0
    ⟨SerialInterface.init termios0 termios0, 0⟩ Relation.ReflTransGen.refl

/-- C3 counterexample: by open → close → immediate re-open, the system
reaches a state whose port is Open while two watcher threads are alive, so
"an open port has at most one live watcher, and no watcher survives into a
subsequent re-open alongside a newly launched one" fails on the code. -/
theorem watcher_two_alive_reachable :
    ∃ σ : SysState, SysReach ⟨sclosed0, 0⟩ σ ∧
      is_open σ.si = true ∧ σ.watchers = 2 := by
  refine ⟨⟨(open_port (close_port (open_port sclosed0 3 termios0).1).1 4 termios0).1, 2⟩,
    ?_, by decide, rfl⟩
  have s1 : SysStep ⟨sclosed0, 0⟩ ⟨(open_port sclosed0 3 termios0).1, 1⟩ :=
    SysStep.open_ok ⟨sclosed0, 0⟩ 3 termios0 (by decide)
  have s2 : SysStep ⟨(open_port sclosed0 3 termios0).1, 1⟩
      ⟨(close_port (open_port sclosed0 3 termios0).1).1, 1⟩ :=
    SysStep.close _
  have s3 : SysStep ⟨(close_port (open_port sclosed0 3 termios0).1).1, 1⟩
      ⟨(open_port (close_port (open_port sclosed0 3 termios0).1).1 4 termios0).1, 2⟩ :=
    SysStep.open_ok _ 4 termios0 (by decide)
  exact ((Relation.ReflTransGen.refl.tail s1).tail s2).tail s3

/-- C9 (amended): the post-processed enumeration result is sorted in natural
order ("port2" strictly precedes "port10") and contains no adjacent duplicate
identifiers; it contains no duplicates at all provided no two distinct
collected identifiers share the same natural-order key (as distinct strings
can, e.g. when they differ only by leading zeros of a numeric run). -/
theorem enumerate_sorted_no_adjacent_dup (l : List String) :
    (enumerate_post l).Pairwise (fun a b => natLe a b = true) ∧
    (enumerate_post l).Chain' (· ≠ ·) ∧
    ((∀ a ∈ l, ∀ b ∈ l, natKey a = natKey b → a = b) → (enumerate_post l).Nodup) ∧
    natKey "port2" < natKey "port10" := by
  refine ⟨enumerate_post_pairwise l, List.destutter_is_chain' _ _, fun hinj => ?_,
    by decide⟩
  exact nodup_of_key_sorted _ (enumerate_post_pairwise l)
    (List.destutter_is_chain' _ _)
    (fun a ha b hb hk =>
      hinj a (enumerate_post_subset l a ha) b (enumerate_post_subset l b hb) hk)

theorem enumerate_sorted_no_adjacent_dup_witness :
    (∀ a ∈ ["/dev/ttyUSB10", "/dev/ttyUSB2", "/dev/ttyUSB2"],
      ∀ b ∈ ["/dev/ttyUSB10", "/dev/ttyUSB2", "/dev/ttyUSB2"],
        natKey a = natKey b → a = b) ∧
    (enumerate_post ["/dev/ttyUSB10", "/dev/ttyUSB2", "/dev/ttyUSB2"]).Nodup :=
  ⟨by decide,
    (enumerate_sorted_no_adjacent_dup
      ["/dev/ttyUSB10", "/dev/ttyUSB2", "/dev/ttyUSB2"]).2.2.1 (by decide)⟩

unseal List.merge List.mergeSort in
/-- C9 counterexample: a collected identifier list in which two equal
identifiers are separated by a distinct but naturally-equivalent one passes
through sort-plus-adjacent-unique unchanged, so the returned sequence still
contains a duplicate. -/
theorem enumerate_duplicate_survives :
    enumerate_post ["/dev/ttyS1", "/dev/ttyS01", "/dev/ttyS1"]
      = ["/dev/ttyS1", "/dev/ttyS01", "/dev/ttyS1"] ∧
    ¬(enumerate_post ["/dev/ttyS1", "/dev/ttyS01", "/dev/ttyS1"]).Nodup := by
  constructor <;> decide

end ZigbeeTerminal
